import Mathlib

/- Verification development for src/server.js: an Express application exposing
   POST /api/v1/transfers, an idempotent funds-transfer endpoint over three
   in-memory dictionaries (ACCOUNTS, PROCESSED_KEYS, TRANSACTIONS).
   The handler is embedded below as the pure function `executeTransfer` on an
   explicit state, with the two effectful inputs it consumes (the uuidv4
   string of line 73 and the ISO timestamp of line 79) passed as arguments.
   JavaScript numbers are modelled exactly (rationals) together with the IEEE
   special values NaN and plus/minus Infinity, since the handler's comparisons
   on them decide several claims; JS dictionaries are association lists. -/

/-- Model of a JavaScript number value: an exact rational (idealising the
finite doubles of the source, whose seed amounts are currency values), or one
of the IEEE special values NaN, Infinity, -Infinity. -/
inductive JNum where
  | nan : JNum
  | inf : JNum
  | ninf : JNum
  | num : ℚ → JNum
deriving DecidableEq, Repr

namespace JNum

/-- JavaScript strict less-than on numbers; every comparison involving NaN is
false, -Infinity is below every other value, Infinity above. -/
def jlt : JNum → JNum → Bool
  | nan, _ => false
  | _, nan => false
  | inf, _ => false
  | _, inf => true
  | ninf, ninf => false
  | ninf, num _ => true
  | num _, ninf => false
  | num a, num b => decide (a < b)

/-- JavaScript less-than-or-equal on numbers; every comparison involving NaN
is false. -/
def jle : JNum → JNum → Bool
  | nan, _ => false
  | _, nan => false
  | _, inf => true
  | inf, _ => false
  | ninf, _ => true
  | _, ninf => false
  | num a, num b => decide (a ≤ b)

/-- JavaScript addition: NaN is absorbing, Infinity + (-Infinity) is NaN,
finite values add exactly. -/
def add : JNum → JNum → JNum
  | nan, _ => nan
  | _, nan => nan
  | inf, ninf => nan
  | ninf, inf => nan
  | inf, _ => inf
  | _, inf => inf
  | ninf, _ => ninf
  | _, ninf => ninf
  | num a, num b => num (a + b)

/-- JavaScript negation of a number. -/
def neg : JNum → JNum
  | nan => nan
  | inf => ninf
  | ninf => inf
  | num a => num (-a)

/-- JavaScript subtraction a - b. -/
def sub (a b : JNum) : JNum := add a (neg b)

end JNum

/-- Property read obj[k] on a JS object modelled as an association list of its
own enumerable properties, in insertion order. -/
def dictGet {α : Type} : List (String × α) → String → Option α
  | [], _ => none
  | (k', v) :: rest, k => if k' = k then some v else dictGet rest k

/-- Property write obj[k] = v on a JS object: overwrites the property in
place when present, appends it otherwise. -/
def dictSet {α : Type} : List (String × α) → String → α → List (String × α)
  | [], k, v => [(k, v)]
  | (k', v') :: rest, k, v =>
      if k' = k then (k, v) :: rest else (k', v') :: dictSet rest k v

/-- The transaction record built at lines 82-89 of src/server.js. -/
structure Transaction where
  transaction_id : String
  sender_id : String
  receiver_id : String
  amount : JNum
  timestamp : String
  status : String
deriving DecidableEq, Repr

/-- The JSON bodies the handler can respond with (and store): each error
response of lines 27-67 keeps only its discriminating code, and the success
body of lines 92-98 keeps its three data fields. -/
inductive Body where
  | errMissingKey
  | errInvalidRequest
  | errInvalidAccount
  | errSelfTransfer
  | errInsufficientFunds
  | success (transaction_id : String) (new_sender_balance : JNum)
      (timestamp : String)
deriving DecidableEq, Repr

/-- A parsed request: the Idempotency-Key header (none when the header is
absent) and the three JSON body fields. A body field holds none when the
field is absent or not of the expected JS type (for amount, when
typeof amount is not number). -/
structure Request where
  idempotencyKey : Option String
  sender_account_id : Option String
  receiver_account_id : Option String
  amount : Option JNum
deriving DecidableEq, Repr

/-- The mutable module state of src/server.js lines 11-20: the three
in-memory dictionaries. -/
structure St where
  ACCOUNTS : List (String × JNum)
  PROCESSED_KEYS : List (String × Body)
  TRANSACTIONS : List (String × Transaction)
deriving DecidableEq, Repr

/-- JS truthiness test !x for an optional string: undefined (none) and the
empty string are falsy, every other string truthy. -/
def falsy : Option String → Bool
  | none => true
  | some s => decide (s = "")

/-- The amount test of line 45: typeof amount !== 'number' || amount <= 0.
none models any non-number value. Note NaN <= 0 and Infinity <= 0 are both
false, so those two values pass this check. -/
def invalidAmount : Option JNum → Bool
  | none => true
  | some a => JNum.jle a (JNum.num 0)

/-- Splitting of a character list at a separator, the embedding of JS
String.prototype.split on a one-character separator: on the empty string it
yields one empty group, and each occurrence of the separator closes the
current group. -/
def splitOnChar (sep : Char) : List Char → List (List Char)
  | [] => [[]]
  | c :: rest =>
    let r := splitOnChar sep rest
    if c = sep then [] :: r else (c :: r.headD []) :: r.tail

/-- The operation id of line 73: TRX- followed by the first dash-separated
segment of the uuidv4 string, uppercased. -/
def transactionIdOf (uuid : String) : String :=
  "TRX-" ++ String.mk (((splitOnChar '-' uuid.data).headD []).map Char.toUpper)

/-- The seed accounts of lines 11-15. -/
def seedState : St :=
  { ACCOUNTS := [("ACC12345", JNum.num 1500), ("ACC67890", JNum.num 500),
                 ("ACC99999", JNum.num 10000)],
    PROCESSED_KEYS := [],
    TRANSACTIONS := [] }

/-- The request handler of POST /api/v1/transfers (src/server.js lines
23-108), as a pure function of the current state, the parsed request, and the
uuidv4 string and ISO timestamp it consumes on the success path. Returns the
HTTP status code with the JSON response body, and the next state. The branch
structure follows the source line by line: missing key (27), replay of a
processed key (35), field validation (45), account validation (54),
self-transfer (58), balance validation (64, which records the error at 66),
and the commit path (73-102). -/
def executeTransfer (st : St) (req : Request) (uuid ts : String) :
    (Nat × Body) × St :=
  if falsy req.idempotencyKey then
    ((400, .errMissingKey), st)
  else
    let idempotencyKey := req.idempotencyKey.getD ""
    match dictGet st.PROCESSED_KEYS idempotencyKey with
    | some stored => ((202, stored), st)
    | none =>
      if falsy req.sender_account_id || falsy req.receiver_account_id ||
          invalidAmount req.amount then
        ((400, .errInvalidRequest), st)
      else
        let sender_account_id := req.sender_account_id.getD ""
        let receiver_account_id := req.receiver_account_id.getD ""
        let amount := req.amount.getD .nan
        if !(dictGet st.ACCOUNTS sender_account_id).isSome ||
            !(dictGet st.ACCOUNTS receiver_account_id).isSome then
          ((400, .errInvalidAccount), st)
        else if sender_account_id = receiver_account_id then
          ((400, .errSelfTransfer), st)
        else
          let currentBalance := (dictGet st.ACCOUNTS sender_account_id).getD .nan
          if JNum.jlt currentBalance amount then
            ((400, .errInsufficientFunds),
             { st with PROCESSED_KEYS :=
                 dictSet st.PROCESSED_KEYS idempotencyKey .errInsufficientFunds })
          else
            let transactionId := transactionIdOf uuid
            let afterDebit := dictSet st.ACCOUNTS sender_account_id
                (JNum.sub currentBalance amount)
            let afterCredit := dictSet afterDebit receiver_account_id
                (JNum.add ((dictGet afterDebit receiver_account_id).getD .nan) amount)
            let newSenderBalance := (dictGet afterCredit sender_account_id).getD .nan
            let txn : Transaction :=
              { transaction_id := transactionId,
                sender_id := sender_account_id,
                receiver_id := receiver_account_id,
                amount := amount,
                timestamp := ts,
                status := "COMPLETED" }
            let responseBody := Body.success transactionId newSenderBalance ts
            ((201, responseBody),
             { ACCOUNTS := afterCredit,
               PROCESSED_KEYS := dictSet st.PROCESSED_KEYS idempotencyKey responseBody,
               TRANSACTIONS := dictSet st.TRANSACTIONS transactionId txn })

/-- One inbound request together with the uuid and timestamp the process
would draw while handling it. -/
structure Call where
  req : Request
  uuid : String
  ts : String

/-- Sequential execution of a list of calls against the server state. -/
def run : St → List Call → St
  | st, [] => st
  | st, c :: cs => run (executeTransfer st c.req c.uuid c.ts).2 cs

/-- The number of calls in a sequence that both carry the idempotency key K
and reach the commit path (ledger mutation, status 201). -/
def countMutForKey : St → List Call → String → Nat
  | _, [], _ => 0
  | st, c :: cs, K =>
    (if c.req.idempotencyKey = some K ∧
        (executeTransfer st c.req c.uuid c.ts).1.1 = 201 then 1 else 0) +
      countMutForKey (executeTransfer st c.req c.uuid c.ts).2 cs K

/-- All account balances are finite non-negative numbers. -/
def goodAccounts (l : List (String × JNum)) : Prop :=
  ∀ p ∈ l, ∃ q : ℚ, p.2 = JNum.num q ∧ 0 ≤ q

/-- An amount field as produced by the JSON body parser of line 7
(express.json): strict JSON number literals evaluate to finite doubles, or to
plus/minus Infinity on overflow, and NaN has no JSON representation at all;
every non-number JSON value is covered by none. So the one JS number a parsed
body can never carry is NaN. -/
def jsonAmount (o : Option JNum) : Prop := o ≠ some JNum.nan

/-- The sum of all account balances, as a JS number. -/
def sumBalances : List (String × JNum) → JNum
  | [] => JNum.num 0
  | p :: rest => JNum.add p.2 (sumBalances rest)

/-- The rational value of a finite JS number (0 on the special values). -/
def qval : JNum → ℚ
  | JNum.num q => q
  | _ => 0

/-- The rational sum of the balance entries of an account list. -/
def sumQ : List (String × JNum) → ℚ
  | [] => 0
  | p :: rest => qval p.2 + sumQ rest

/-- Transaction records are keyed by their own transaction_id and the keys
are pairwise distinct. -/
def goodTransactions (l : List (String × Transaction)) : Prop :=
  (l.map Prod.fst).Nodup ∧ ∀ p ∈ l, p.2.transaction_id = p.1

lemma dictGet_dictSet_self {α : Type} (l : List (String × α)) (k : String)
    (v : α) : dictGet (dictSet l k v) k = some v := by
  induction l with
  | nil => simp [dictGet, dictSet]
  | cons p rest ih =>
      obtain ⟨k', v'⟩ := p
      by_cases h : k' = k
      · subst h
        simp [dictGet, dictSet]
      · simp [dictGet, dictSet, h, ih]

lemma dictGet_dictSet_ne {α : Type} (l : List (String × α)) (k k' : String)
    (v : α) (h : k' ≠ k) : dictGet (dictSet l k v) k' = dictGet l k' := by
  have h' : k ≠ k' := Ne.symm h
  induction l with
  | nil => simp [dictGet, dictSet, h']
  | cons p rest ih =>
      obtain ⟨k'', v''⟩ := p
      by_cases hk : k'' = k
      · subst hk
        simp [dictGet, dictSet, h']
      · simp [dictGet, dictSet, hk, ih]

lemma dictGet_isSome_dictSet {α : Type} (l : List (String × α)) (k K : String)
    (v : α) (h : (dictGet l K).isSome) :
    (dictGet (dictSet l k v) K).isSome := by
  by_cases hK : K = k
  · subst hK
    simp [dictGet_dictSet_self]
  · rwa [dictGet_dictSet_ne l k K v hK]

lemma mem_dictSet {α : Type} {l : List (String × α)} {k : String} {v : α}
    {p : String × α} (h : p ∈ dictSet l k v) : p = (k, v) ∨ p ∈ l := by
  induction l with
  | nil =>
      simp [dictSet] at h
      exact Or.inl h
  | cons q rest ih =>
      obtain ⟨k', v'⟩ := q
      by_cases hk : k' = k
      · subst hk
        simp [dictSet] at h
        rcases h with h | h
        · exact Or.inl h
        · exact Or.inr (List.mem_cons_of_mem _ h)
      · simp [dictSet, hk] at h
        rcases h with h | h
        · exact Or.inr (by simp [h])
        · rcases ih h with h' | h'
          · exact Or.inl h'
          · exact Or.inr (List.mem_cons_of_mem _ h')

lemma dictGet_none_not_mem {α : Type} {l : List (String × α)} {k : String}
    (h : dictGet l k = none) : k ∉ l.map Prod.fst := by
  induction l with
  | nil => simp
  | cons q rest ih =>
      obtain ⟨k', v'⟩ := q
      by_cases hk : k' = k
      · subst hk
        simp [dictGet] at h
      · simp [dictGet, hk] at h
        simpa [hk, Ne.symm hk] using ih h

lemma map_fst_dictSet_present {α : Type} (l : List (String × α)) (k : String)
    (v : α) (h : (dictGet l k).isSome) :
    (dictSet l k v).map Prod.fst = l.map Prod.fst := by
  induction l with
  | nil => simp [dictGet] at h
  | cons q rest ih =>
      obtain ⟨k', v'⟩ := q
      by_cases hk : k' = k
      · subst hk
        simp [dictSet]
      · simp [dictGet, hk] at h
        simp [dictSet, hk, ih h]

lemma map_fst_dictSet_absent {α : Type} (l : List (String × α)) (k : String)
    (v : α) (h : dictGet l k = none) :
    (dictSet l k v).map Prod.fst = l.map Prod.fst ++ [k] := by
  induction l with
  | nil => simp [dictSet]
  | cons q rest ih =>
      obtain ⟨k', v'⟩ := q
      by_cases hk : k' = k
      · subst hk
        simp [dictGet] at h
      · simp [dictGet, hk] at h
        simp [dictSet, hk, ih h]

/-- Line 35: a request whose key is already in PROCESSED_KEYS gets the stored
body back with status 202 and changes nothing, whatever the payload. -/
lemma executeTransfer_replay (st : St) (req : Request) (u t : String)
    (k : String) (hk : req.idempotencyKey = some k) (hkne : k ≠ "")
    (b : Body) (hb : dictGet st.PROCESSED_KEYS k = some b) :
    executeTransfer st req u t = ((202, b), st) := by
  have hfk : falsy req.idempotencyKey = false := by
    rw [hk]; simp [falsy, hkne]
  unfold executeTransfer
  rw [hfk]
  simp [hk, hb]

/-- Line 45: with a fresh non-empty key, a request failing the basic field
validation is rejected with no state change. -/
lemma executeTransfer_invalidRequest (st : St) (req : Request) (u t : String)
    (k : String) (hk : req.idempotencyKey = some k) (hkne : k ≠ "")
    (hfresh : dictGet st.PROCESSED_KEYS k = none)
    (hbad : (falsy req.sender_account_id || falsy req.receiver_account_id ||
      invalidAmount req.amount) = true) :
    executeTransfer st req u t = ((400, .errInvalidRequest), st) := by
  have hfk : falsy req.idempotencyKey = false := by
    rw [hk]; simp [falsy, hkne]
  unfold executeTransfer
  rw [hfk]
  simp [hk, hfresh, hbad]

/-- Line 58: with a fresh non-empty key, valid fields and sender equal to
receiver naming an existing account, the request is rejected as a
self-transfer with no state change. -/
lemma executeTransfer_selfTransfer (st : St) (req : Request) (u t : String)
    (k s : String) (a : JNum)
    (hk : req.idempotencyKey = some k) (hkne : k ≠ "")
    (hfresh : dictGet st.PROCESSED_KEYS k = none)
    (hs : req.sender_account_id = some s) (hsne : s ≠ "")
    (hr : req.receiver_account_id = some s)
    (ha : req.amount = some a) (hapos : JNum.jle a (JNum.num 0) = false)
    (bs : JNum) (hbs : dictGet st.ACCOUNTS s = some bs) :
    executeTransfer st req u t = ((400, .errSelfTransfer), st) := by
  have hfk : falsy req.idempotencyKey = false := by
    rw [hk]; simp [falsy, hkne]
  unfold executeTransfer
  rw [hfk]
  simp [hk, hfresh, hs, hr, ha, falsy, invalidAmount, hsne, hapos, hbs]

/-- Lines 63-67: with a fresh non-empty key, valid fields, distinct existing
accounts and a sender balance strictly below the amount, the request is
rejected as insufficient funds and that error body is recorded under the
key. -/
lemma executeTransfer_insufficient (st : St) (req : Request) (u t : String)
    (k s r : String) (a bs br : JNum)
    (hk : req.idempotencyKey = some k) (hkne : k ≠ "")
    (hfresh : dictGet st.PROCESSED_KEYS k = none)
    (hs : req.sender_account_id = some s) (hsne : s ≠ "")
    (hr : req.receiver_account_id = some r) (hrne : r ≠ "")
    (ha : req.amount = some a) (hapos : JNum.jle a (JNum.num 0) = false)
    (hbs : dictGet st.ACCOUNTS s = some bs)
    (hbr : dictGet st.ACCOUNTS r = some br)
    (hsr : s ≠ r)
    (hfunds : JNum.jlt bs a = true) :
    executeTransfer st req u t = ((400, .errInsufficientFunds),
      { st with PROCESSED_KEYS :=
          dictSet st.PROCESSED_KEYS k .errInsufficientFunds }) := by
  have hfk : falsy req.idempotencyKey = false := by
    rw [hk]; simp [falsy, hkne]
  unfold executeTransfer
  rw [hfk]
  simp [hk, hfresh, hs, hr, ha, falsy, invalidAmount, hsne, hrne, hapos,
    hbs, hbr, hsr, hfunds]

/-- Lines 73-102: with a fresh non-empty key, valid fields, distinct existing
accounts and sufficient funds, the transfer commits: the sender is debited,
the receiver credited, the transaction stored, and the success body both
recorded under the key and returned with status 201. -/
lemma executeTransfer_commit (st : St) (req : Request) (u t : String)
    (k s r : String) (a bs br : JNum)
    (hk : req.idempotencyKey = some k) (hkne : k ≠ "")
    (hfresh : dictGet st.PROCESSED_KEYS k = none)
    (hs : req.sender_account_id = some s) (hsne : s ≠ "")
    (hr : req.receiver_account_id = some r) (hrne : r ≠ "")
    (ha : req.amount = some a) (hapos : JNum.jle a (JNum.num 0) = false)
    (hbs : dictGet st.ACCOUNTS s = some bs)
    (hbr : dictGet st.ACCOUNTS r = some br)
    (hsr : s ≠ r)
    (hfunds : JNum.jlt bs a = false) :
    executeTransfer st req u t =
      ((201, Body.success (transactionIdOf u) (JNum.sub bs a) t),
       { ACCOUNTS := dictSet (dictSet st.ACCOUNTS s (JNum.sub bs a)) r
           (JNum.add br a),
         PROCESSED_KEYS := dictSet st.PROCESSED_KEYS k
           (Body.success (transactionIdOf u) (JNum.sub bs a) t),
         TRANSACTIONS := dictSet st.TRANSACTIONS (transactionIdOf u)
           ⟨transactionIdOf u, s, r, a, t, "COMPLETED"⟩ }) := by
  have hfk : falsy req.idempotencyKey = false := by
    rw [hk]; simp [falsy, hkne]
  have h1 : dictGet (dictSet st.ACCOUNTS s (JNum.sub bs a)) r = some br := by
    rw [dictGet_dictSet_ne _ _ _ _ (Ne.symm hsr)]
    exact hbr
  have h2 : dictGet (dictSet (dictSet st.ACCOUNTS s (JNum.sub bs a)) r
      (JNum.add br a)) s = some (JNum.sub bs a) := by
    rw [dictGet_dictSet_ne _ _ _ _ hsr]
    exact dictGet_dictSet_self _ _ _
  unfold executeTransfer
  rw [hfk]
  simp [hk, hfresh, hs, hr, ha, falsy, invalidAmount, hsne, hrne, hapos,
    hbs, hbr, hsr, hfunds, h1, h2]

/-- Line 27: a missing or empty Idempotency-Key header is rejected with no
state change. -/
lemma executeTransfer_missingKey (st : St) (req : Request) (u t : String)
    (h : falsy req.idempotencyKey = true) :
    executeTransfer st req u t = ((400, .errMissingKey), st) := by
  unfold executeTransfer
  rw [h]
  simp

/-- Line 54: with a fresh non-empty key and valid fields, a sender or
receiver that is not a seeded account is rejected with no state change. -/
lemma executeTransfer_invalidAccount (st : St) (req : Request) (u t : String)
    (k s r : String) (a : JNum)
    (hk : req.idempotencyKey = some k) (hkne : k ≠ "")
    (hfresh : dictGet st.PROCESSED_KEYS k = none)
    (hs : req.sender_account_id = some s) (hsne : s ≠ "")
    (hr : req.receiver_account_id = some r) (hrne : r ≠ "")
    (ha : req.amount = some a) (hapos : JNum.jle a (JNum.num 0) = false)
    (hacc : (!(dictGet st.ACCOUNTS s).isSome ||
      !(dictGet st.ACCOUNTS r).isSome) = true) :
    executeTransfer st req u t = ((400, .errInvalidAccount), st) := by
  have hfk : falsy req.idempotencyKey = false := by
    rw [hk]; simp [falsy, hkne]
  have hacc' : dictGet st.ACCOUNTS s = none ∨ dictGet st.ACCOUNTS r = none := by
    rcases hdx : dictGet st.ACCOUNTS s with _ | x
    · exact Or.inl rfl
    · rcases hdy : dictGet st.ACCOUNTS r with _ | y
      · exact Or.inr rfl
      · rw [hdx, hdy] at hacc
        simp at hacc
  unfold executeTransfer
  rw [hfk]
  rcases hacc' with h | h
  · simp [hk, hfresh, hs, hr, ha, falsy, invalidAmount, hsne, hrne, hapos, h]
  · simp [hk, hfresh, hs, hr, ha, falsy, invalidAmount, hsne, hrne, hapos, h]

/-- A non-empty falsy test succeeds exactly on a present non-empty string. -/
lemma falsy_eq_false {o : Option String} (h : falsy o = false) :
    ∃ s, o = some s ∧ s ≠ "" := by
  cases o with
  | none => simp [falsy] at h
  | some s => exact ⟨s, rfl, by simpa [falsy] using h⟩

/-- A passing amount test means a number that is not below or equal to 0. -/
lemma invalidAmount_eq_false {o : Option JNum} (h : invalidAmount o = false) :
    ∃ a, o = some a ∧ JNum.jle a (JNum.num 0) = false := by
  cases o with
  | none => simp [invalidAmount] at h
  | some a => exact ⟨a, rfl, by simpa [invalidAmount] using h⟩

/-- Complete case analysis of the handler: every call either returns a
non-201 response leaving the state untouched, or records an insufficient
funds error under its fresh key, or commits a transfer. -/
lemma executeTransfer_shape (st : St) (req : Request) (u t : String) :
    (∃ sc b, executeTransfer st req u t = ((sc, b), st) ∧ sc ≠ 201) ∨
    (∃ k, req.idempotencyKey = some k ∧ k ≠ "" ∧
      dictGet st.PROCESSED_KEYS k = none ∧
      executeTransfer st req u t = ((400, .errInsufficientFunds),
        { st with PROCESSED_KEYS :=
            dictSet st.PROCESSED_KEYS k .errInsufficientFunds })) ∨
    (∃ k s r a bs br, req.idempotencyKey = some k ∧ k ≠ "" ∧
      dictGet st.PROCESSED_KEYS k = none ∧
      req.sender_account_id = some s ∧ req.receiver_account_id = some r ∧
      req.amount = some a ∧ JNum.jle a (JNum.num 0) = false ∧
      dictGet st.ACCOUNTS s = some bs ∧ dictGet st.ACCOUNTS r = some br ∧
      s ≠ r ∧ JNum.jlt bs a = false ∧
      executeTransfer st req u t =
        ((201, Body.success (transactionIdOf u) (JNum.sub bs a) t),
         { ACCOUNTS := dictSet (dictSet st.ACCOUNTS s (JNum.sub bs a)) r
             (JNum.add br a),
           PROCESSED_KEYS := dictSet st.PROCESSED_KEYS k
             (Body.success (transactionIdOf u) (JNum.sub bs a) t),
           TRANSACTIONS := dictSet st.TRANSACTIONS (transactionIdOf u)
             ⟨transactionIdOf u, s, r, a, t, "COMPLETED"⟩ })) := by
  by_cases hfk : falsy req.idempotencyKey = true
  · exact Or.inl ⟨400, .errMissingKey,
      executeTransfer_missingKey st req u t hfk, by decide⟩
  · have hfk' : falsy req.idempotencyKey = false := by simpa using hfk
    obtain ⟨k, hk, hkne⟩ := falsy_eq_false hfk'
    match hst : dictGet st.PROCESSED_KEYS k with
    | some b =>
        exact Or.inl ⟨202, b,
          executeTransfer_replay st req u t k hk hkne b hst, by decide⟩
    | none =>
        by_cases hbad : (falsy req.sender_account_id ||
            falsy req.receiver_account_id || invalidAmount req.amount) = true
        · exact Or.inl ⟨400, .errInvalidRequest,
            executeTransfer_invalidRequest st req u t k hk hkne hst hbad,
            by decide⟩
        · have hbad' := eq_false_of_ne_true hbad
          simp only [Bool.or_eq_false_iff] at hbad'
          obtain ⟨⟨hfs, hfr⟩, hfa⟩ := hbad'
          obtain ⟨s, hs, hsne⟩ := falsy_eq_false hfs
          obtain ⟨r, hr, hrne⟩ := falsy_eq_false hfr
          obtain ⟨a, ha, hapos⟩ := invalidAmount_eq_false hfa
          by_cases hacc : (!(dictGet st.ACCOUNTS s).isSome ||
              !(dictGet st.ACCOUNTS r).isSome) = true
          · exact Or.inl ⟨400, .errInvalidAccount,
              executeTransfer_invalidAccount st req u t k s r a hk hkne hst
                hs hsne hr hrne ha hapos hacc, by decide⟩
          · have hacc' := eq_false_of_ne_true hacc
            simp only [Bool.or_eq_false_iff, Bool.not_eq_false',
              Option.isSome_iff_exists] at hacc'
            obtain ⟨⟨bs, hbs⟩, ⟨br, hbr⟩⟩ := hacc'
            by_cases hsr : s = r
            · subst hsr
              exact Or.inl ⟨400, .errSelfTransfer,
                executeTransfer_selfTransfer st req u t k s a hk hkne hst
                  hs hsne hr ha hapos bs hbs, by decide⟩
            · by_cases hfunds : JNum.jlt bs a = true
              · exact Or.inr (Or.inl ⟨k, hk, hkne, hst,
                  executeTransfer_insufficient st req u t k s r a bs br hk
                    hkne hst hs hsne hr hrne ha hapos hbs hbr hsr hfunds⟩)
              · exact Or.inr (Or.inr ⟨k, s, r, a, bs, br, hk, hkne, hst, hs,
                  hr, ha, hapos, hbs, hbr, hsr,
                  eq_false_of_ne_true hfunds,
                  executeTransfer_commit st req u t k s r a bs br hk hkne
                    hst hs hsne hr hrne ha hapos hbs hbr hsr
                    (eq_false_of_ne_true hfunds)⟩)

/-- A key present in PROCESSED_KEYS stays present across any call: keys are
only ever added, never removed. -/
lemma processedKeys_mono (st : St) (req : Request) (u t : String) (K : String)
    (h : (dictGet st.PROCESSED_KEYS K).isSome) :
    (dictGet (executeTransfer st req u t).2.PROCESSED_KEYS K).isSome := by
  rcases executeTransfer_shape st req u t with
      ⟨sc, b, hE, _⟩ |
      ⟨k, _, _, _, hE⟩ |
      ⟨k, s, r, a, bs, br, _, _, _, _, _, _, _, _, _, _, _, hE⟩ <;>
    rw [hE]
  · exact h
  · exact dictGet_isSome_dictSet _ _ _ _ h
  · exact dictGet_isSome_dictSet _ _ _ _ h

/-- A call whose key is already in PROCESSED_KEYS never reaches the commit
path (its status is 400 for an empty key or 202 for a replay). -/
lemma status_ne_201_of_stored (st : St) (req : Request) (u t : String)
    (K : String) (hk : req.idempotencyKey = some K)
    (h : (dictGet st.PROCESSED_KEYS K).isSome) :
    (executeTransfer st req u t).1.1 ≠ 201 := by
  by_cases hK : K = ""
  · subst hK
    rw [executeTransfer_missingKey st req u t (by rw [hk]; rfl)]
    simp
  · obtain ⟨b, hb⟩ := Option.isSome_iff_exists.mp h
    rw [executeTransfer_replay st req u t K hk hK b hb]
    simp

/-- After a commit (status 201), the call's key is in PROCESSED_KEYS. -/
lemma stored_after_201 (st : St) (req : Request) (u t : String) (K : String)
    (hk : req.idempotencyKey = some K)
    (h201 : (executeTransfer st req u t).1.1 = 201) :
    (dictGet (executeTransfer st req u t).2.PROCESSED_KEYS K).isSome := by
  rcases executeTransfer_shape st req u t with
      ⟨sc, b, hE, hne⟩ |
      ⟨k, _, _, _, hE⟩ |
      ⟨k, s, r, a, bs, br, hk', _, _, _, _, _, _, _, _, _, _, hE⟩
  · rw [hE] at h201
    exact absurd h201 hne
  · rw [hE] at h201
    simp at h201
  · rw [hk] at hk'
    have hkK : k = K := by injection hk'.symm
    rw [hE]
    subst hkK
    rw [dictGet_dictSet_self]
    rfl

/-- Once K is in PROCESSED_KEYS, no later call with key K ever commits. -/
lemma countMutForKey_zero_of_stored (cs : List Call) (st : St) (K : String)
    (h : (dictGet st.PROCESSED_KEYS K).isSome) :
    countMutForKey st cs K = 0 := by
  induction cs generalizing st with
  | nil => rfl
  | cons c rest ih =>
      unfold countMutForKey
      rw [if_neg, ih _ (processedKeys_mono st c.req c.uuid c.ts K h)]
      rintro ⟨hck, h201⟩
      exact status_ne_201_of_stored st c.req c.uuid c.ts K hck h h201

lemma mem_of_dictGet {α : Type} {l : List (String × α)} {k : String} {v : α}
    (h : dictGet l k = some v) : (k, v) ∈ l := by
  induction l with
  | nil => simp [dictGet] at h
  | cons p rest ih =>
      obtain ⟨k', v'⟩ := p
      by_cases hk : k' = k
      · subst hk
        simp [dictGet] at h
        simp [h]
      · simp [dictGet, hk] at h
        exact List.mem_cons_of_mem _ (ih h)

/-- The commit path of a request whose amount can come out of the JSON parser
keeps every balance a finite non-negative number: the line 45 check forces
0 < amount and the line 64 check forces amount ≤ sender balance. -/
lemma goodAccounts_step (st : St) (req : Request) (u t : String)
    (hg : goodAccounts st.ACCOUNTS) (hj : jsonAmount req.amount) :
    goodAccounts (executeTransfer st req u t).2.ACCOUNTS := by
  rcases executeTransfer_shape st req u t with
      ⟨sc, b, hE, _⟩ |
      ⟨k, _, _, _, hE⟩ |
      ⟨k, s, r, a, bs, br, hk, hkne, hfresh, hs, hr, ha, hapos, hbs, hbr,
        hsr, hfunds, hE⟩ <;> rw [hE]
  · exact hg
  · exact hg
  · obtain ⟨qs, hqs, hqs0⟩ := hg _ (mem_of_dictGet hbs)
    obtain ⟨qr, hqr, hqr0⟩ := hg _ (mem_of_dictGet hbr)
    simp only at hqs hqr
    subst hqs hqr
    match a with
    | JNum.nan => exact absurd ha hj
    | JNum.inf => simp [JNum.jlt] at hfunds
    | JNum.ninf => simp [JNum.jle] at hapos
    | JNum.num qa =>
        have hqa0 : 0 < qa := by
          simp [JNum.jle] at hapos
          linarith
        have hqale : qa ≤ qs := by
          simp [JNum.jlt] at hfunds
          exact hfunds
        intro p hp
        rcases mem_dictSet hp with hp' | hp'
        · subst hp'
          exact ⟨qr + qa, by simp [JNum.add], by linarith⟩
        · rcases mem_dictSet hp' with hp'' | hp''
          · subst hp''
            exact ⟨qs + -qa, by simp [JNum.sub, JNum.add, JNum.neg],
              by linarith⟩
          · exact hg _ hp''

lemma goodAccounts_run (calls : List Call) (st : St)
    (hg : goodAccounts st.ACCOUNTS)
    (hj : ∀ c ∈ calls, jsonAmount c.req.amount) :
    goodAccounts (run st calls).ACCOUNTS := by
  induction calls generalizing st with
  | nil => exact hg
  | cons c cs ih =>
      exact ih _
        (goodAccounts_step st c.req c.uuid c.ts hg
          (hj c (List.mem_cons_self _ _)))
        (fun c' hc' => hj c' (List.mem_cons_of_mem _ hc'))

lemma goodAccounts_seed : goodAccounts seedState.ACCOUNTS := by
  intro p hp
  simp [seedState] at hp
  rcases hp with h | h | h <;> subst h
  · exact ⟨1500, rfl, by norm_num⟩
  · exact ⟨500, rfl, by norm_num⟩
  · exact ⟨10000, rfl, by norm_num⟩

lemma sumBalances_eq_sumQ {l : List (String × JNum)} (hg : goodAccounts l) :
    sumBalances l = JNum.num (sumQ l) := by
  induction l with
  | nil => rfl
  | cons p rest ih =>
      obtain ⟨q, hq, _⟩ := hg p (List.mem_cons_self _ _)
      have ht := ih (fun x hx => hg x (List.mem_cons_of_mem _ hx))
      simp [sumBalances, sumQ, ht, hq, JNum.add, qval]

lemma sumQ_dictSet {l : List (String × JNum)} {k : String} {w : JNum}
    (h : dictGet l k = some w) (v : JNum) :
    sumQ (dictSet l k v) = sumQ l - qval w + qval v := by
  induction l with
  | nil => simp [dictGet] at h
  | cons p rest ih =>
      obtain ⟨k', w'⟩ := p
      by_cases hk : k' = k
      · subst hk
        simp [dictGet] at h
        subst h
        simp [dictSet, sumQ]
        ring
      · simp [dictGet, hk] at h
        simp [dictSet, hk, sumQ, ih h]
        ring

lemma goodTransactions_step (st : St) (req : Request) (u t : String)
    (hg : goodTransactions st.TRANSACTIONS) :
    goodTransactions (executeTransfer st req u t).2.TRANSACTIONS := by
  rcases executeTransfer_shape st req u t with
      ⟨sc, b, hE, _⟩ |
      ⟨k, _, _, _, hE⟩ |
      ⟨k, s, r, a, bs, br, hk, hkne, hfresh, hs, hr, ha, hapos, hbs, hbr,
        hsr, hfunds, hE⟩ <;> rw [hE]
  · exact hg
  · exact hg
  · constructor
    · rcases hc : dictGet st.TRANSACTIONS (transactionIdOf u) with _ | w
      · rw [map_fst_dictSet_absent _ _ _ hc]
        rw [List.nodup_append]
        refine ⟨hg.1, List.nodup_singleton _, ?_⟩
        intro x hx hx'
        simp at hx'
        subst hx'
        exact dictGet_none_not_mem hc hx
      · rw [map_fst_dictSet_present _ _ _ (by simp [hc])]
        exact hg.1
    · intro p hp
      rcases mem_dictSet hp with hp' | hp'
      · subst hp'
        rfl
      · exact hg.2 _ hp'

lemma goodTransactions_run (calls : List Call) (st : St)
    (hg : goodTransactions st.TRANSACTIONS) :
    goodTransactions (run st calls).TRANSACTIONS := by
  induction calls generalizing st with
  | nil => exact hg
  | cons c cs ih => exact ih _ (goodTransactions_step st c.req c.uuid c.ts hg)

lemma map_txnId_eq_map_fst {l : List (String × Transaction)}
    (h : ∀ p ∈ l, p.2.transaction_id = p.1) :
    l.map (fun p => p.2.transaction_id) = l.map Prod.fst := by
  induction l with
  | nil => rfl
  | cons p rest ih =>
      simp only [List.map_cons, h p (List.mem_cons_self _ _)]
      rw [ih (fun x hx => h x (List.mem_cons_of_mem _ hx))]

example :
    (executeTransfer seedState
      ⟨some "K1", some "ACC12345", some "ACC67890", some (JNum.num 200)⟩
      "ab12cd34-9999-1111-2222-333333333333" "2026-01-01T00:00:00.000Z").1
    = (201, Body.success "TRX-AB12CD34" (JNum.num 1300)
        "2026-01-01T00:00:00.000Z") := by
  simp [executeTransfer, seedState, falsy, invalidAmount, dictGet, dictSet,
    transactionIdOf, splitOnChar, JNum.jlt, JNum.jle, JNum.sub, JNum.add,
    JNum.neg]
  norm_num

/-- C3: across any sequence of calls from any state, at most one call
carrying a given idempotency key K ever reaches the commit path (the
debit/credit pair of lines 76-77), however many retries occur: the first
commit stores the key, stored keys are never removed, and a call whose key
is stored is answered by replay (or by the empty-key rejection), never by a
commit. -/
theorem c3_at_most_one_mutation_per_key (st : St) (calls : List Call)
    (K : String) : countMutForKey st calls K ≤ 1 := by
  induction calls generalizing st with
  | nil => simp [countMutForKey]
  | cons c cs ih =>
      unfold countMutForKey
      by_cases h : c.req.idempotencyKey = some K ∧
          (executeTransfer st c.req c.uuid c.ts).1.1 = 201
      · rw [if_pos h, countMutForKey_zero_of_stored cs _ K
          (stored_after_201 st c.req c.uuid c.ts K h.1 h.2)]
      · rw [if_neg h]
        simpa using ih _

/-- C6: a call whose idempotency key already has a stored record returns the
stored body verbatim with status 202 — so the original transaction_id,
balance and timestamp of a stored Success, or the original stored error —
performs no validation and no ledger mutation, and leaves the accounts, the
transaction log and the idempotency store unchanged, even when the retry
carries a different payload. -/
theorem c6_duplicate_key_replays_stored_outcome_verbatim
    (st : St) (req : Request) (u t : String) (k : String) (b : Body)
    (hk : req.idempotencyKey = some k) (hkne : k ≠ "")
    (hb : dictGet st.PROCESSED_KEYS k = some b) :
    executeTransfer st req u t = ((202, b), st) :=
  executeTransfer_replay st req u t k hk hkne b hb

/-- Witness for C6: a stored Success record under key K1 is replayed
verbatim against a retry with a different payload, and the state is
untouched. -/
theorem c6_witness :
    executeTransfer
      { ACCOUNTS := [("ACC12345", JNum.num 1300), ("ACC67890", JNum.num 700)],
        PROCESSED_KEYS :=
          [("K1", Body.success "TRX-AB12CD34" (JNum.num 1300) "T0")],
        TRANSACTIONS := [] }
      ⟨some "K1", some "ACC67890", some "ACC12345", some (JNum.num 50)⟩
      "ffffffff-1-2-3" "T9"
    = ((202, Body.success "TRX-AB12CD34" (JNum.num 1300) "T0"),
       { ACCOUNTS := [("ACC12345", JNum.num 1300), ("ACC67890", JNum.num 700)],
         PROCESSED_KEYS :=
           [("K1", Body.success "TRX-AB12CD34" (JNum.num 1300) "T0")],
         TRANSACTIONS := [] }) :=
  c6_duplicate_key_replays_stored_outcome_verbatim _ _ _ _ "K1"
    (Body.success "TRX-AB12CD34" (JNum.num 1300) "T0") rfl (by decide)
    (by decide)

/-- C8: with a fresh non-empty idempotency key, valid fields, and sender
equal to receiver naming an existing account, the handler returns
SelfTransferNotAllowed, touches no balance, and records nothing under the
key — the whole state is unchanged — so a retry with the same key is
re-validated rather than replayed. -/
theorem c8_self_transfer_rejected_and_unrecorded
    (st : St) (req : Request) (u t : String) (k s : String) (a bs : JNum)
    (hk : req.idempotencyKey = some k) (hkne : k ≠ "")
    (hfresh : dictGet st.PROCESSED_KEYS k = none)
    (hs : req.sender_account_id = some s) (hsne : s ≠ "")
    (hr : req.receiver_account_id = some s)
    (ha : req.amount = some a) (hapos : JNum.jle a (JNum.num 0) = false)
    (hbs : dictGet st.ACCOUNTS s = some bs) :
    executeTransfer st req u t = ((400, .errSelfTransfer), st) :=
  executeTransfer_selfTransfer st req u t k s a hk hkne hfresh hs hsne hr ha
    hapos bs hbs

/-- Witness for C8: the A to A, amount 10, key K3 scenario on the seed
state. -/
theorem c8_witness :
    executeTransfer seedState
      ⟨some "K3", some "ACC12345", some "ACC12345", some (JNum.num 10)⟩
      "u3-3" "T3"
    = ((400, .errSelfTransfer), seedState) :=
  c8_self_transfer_rejected_and_unrecorded seedState _ "u3-3" "T3" "K3"
    "ACC12345" (JNum.num 10) (JNum.num 1500) rfl (by decide) (by decide) rfl
    (by decide) rfl rfl (by decide) (by decide)

/-- C9: in every state reachable from the seed by any sequence of calls, the
stored transaction records carry pairwise distinct transaction_ids: the
transaction log is a dictionary keyed by the generated id (line 90) and each
record embeds its own id (line 83), so no two stored Transaction records
ever share a transaction_id. -/
theorem c9_transaction_ids_distinct (calls : List Call) :
    (((run seedState calls).TRANSACTIONS).map
        (fun p => p.2.transaction_id)).Nodup := by
  have hg := goodTransactions_run calls seedState
    ⟨by simp [seedState], by simp [seedState]⟩
  rw [map_txnId_eq_map_fst hg.2]
  exact hg.1

/-- C1 counterexample: a fresh-key request failing check 4 (InvalidAccount:
sender NOPE is not a seeded account) is NOT recorded into the idempotency
store before being returned, contrary to the claim that failures of checks
4-6 are all recorded: the handler answers INVALID_ACCOUNT and PROCESSED_KEYS
still has no entry for the key. -/
theorem c1_counterexample_invalid_account_not_recorded :
    (executeTransfer seedState
        ⟨some "K4", some "NOPE", some "ACC67890", some (JNum.num 10)⟩
        "u4-4" "T4").1.2 = Body.errInvalidAccount ∧
    dictGet (executeTransfer seedState
        ⟨some "K4", some "NOPE", some "ACC67890", some (JNum.num 10)⟩
        "u4-4" "T4").2.PROCESSED_KEYS "K4" = none := by
  decide

/-- C1 (amended): of validation checks 4-6, only a check-6 failure
(InsufficientFunds) is recorded into the idempotency store under the fresh
key before being returned, and a retry with the same key then replays the
stored error instead of re-validating; InvalidAccount and
SelfTransferNotAllowed failures are not recorded. -/
theorem c1_insufficient_funds_recorded_and_replayed
    (st : St) (req : Request) (u t : String) (k s r : String)
    (a bs br : JNum)
    (hk : req.idempotencyKey = some k) (hkne : k ≠ "")
    (hfresh : dictGet st.PROCESSED_KEYS k = none)
    (hs : req.sender_account_id = some s) (hsne : s ≠ "")
    (hr : req.receiver_account_id = some r) (hrne : r ≠ "")
    (ha : req.amount = some a) (hapos : JNum.jle a (JNum.num 0) = false)
    (hbs : dictGet st.ACCOUNTS s = some bs)
    (hbr : dictGet st.ACCOUNTS r = some br)
    (hsr : s ≠ r)
    (hfunds : JNum.jlt bs a = true) :
    executeTransfer st req u t = ((400, Body.errInsufficientFunds),
      { st with PROCESSED_KEYS :=
          dictSet st.PROCESSED_KEYS k .errInsufficientFunds }) ∧
    dictGet (executeTransfer st req u t).2.PROCESSED_KEYS k
      = some Body.errInsufficientFunds ∧
    ∀ (req' : Request) (u' t' : String), req'.idempotencyKey = some k →
      executeTransfer (executeTransfer st req u t).2 req' u' t' =
        ((202, Body.errInsufficientFunds),
         (executeTransfer st req u t).2) := by
  have E := executeTransfer_insufficient st req u t k s r a bs br hk hkne
    hfresh hs hsne hr hrne ha hapos hbs hbr hsr hfunds
  have hrec : dictGet (executeTransfer st req u t).2.PROCESSED_KEYS k
      = some Body.errInsufficientFunds := by
    rw [E]
    exact dictGet_dictSet_self _ _ _
  exact ⟨E, hrec, fun req' u' t' hk' =>
    executeTransfer_replay _ req' u' t' k hk' hkne _ hrec⟩

/-- Witness for C1 (amended): transferring 5000 from ACC12345 (balance 1500)
under fresh key K2 records InsufficientFunds, and a retry with the same key
and a corrected amount of 100 replays the stored error. -/
theorem c1_witness :
    dictGet (executeTransfer seedState
        ⟨some "K2", some "ACC12345", some "ACC67890", some (JNum.num 5000)⟩
        "u0-0" "T0").2.PROCESSED_KEYS "K2"
      = some Body.errInsufficientFunds ∧
    executeTransfer
      (executeTransfer seedState
        ⟨some "K2", some "ACC12345", some "ACC67890", some (JNum.num 5000)⟩
        "u0-0" "T0").2
      ⟨some "K2", some "ACC12345", some "ACC67890", some (JNum.num 100)⟩
      "u9-9" "T9"
    = ((202, Body.errInsufficientFunds),
       (executeTransfer seedState
        ⟨some "K2", some "ACC12345", some "ACC67890", some (JNum.num 5000)⟩
        "u0-0" "T0").2) :=
  ⟨(c1_insufficient_funds_recorded_and_replayed seedState _ "u0-0" "T0" "K2"
      "ACC12345" "ACC67890" (JNum.num 5000) (JNum.num 1500) (JNum.num 500)
      rfl (by decide) rfl rfl (by decide) rfl (by decide) rfl (by decide)
      rfl rfl (by decide) (by decide)).2.1,
   (c1_insufficient_funds_recorded_and_replayed seedState _ "u0-0" "T0" "K2"
      "ACC12345" "ACC67890" (JNum.num 5000) (JNum.num 1500) (JNum.num 500)
      rfl (by decide) rfl rfl (by decide) rfl (by decide) rfl (by decide)
      rfl rfl (by decide) (by decide)).2.2
     ⟨some "K2", some "ACC12345", some "ACC67890", some (JNum.num 100)⟩
     "u9-9" "T9" rfl⟩

/-- C2 counterexample: with a fresh key and an amount of Infinity — not a
finite positive number, and producible by strict JSON from an overflowing
literal such as 1e999 — the handler does NOT return InvalidRequest and does
NOT leave the key unrecorded: Infinity passes the line 45 validation
(Infinity <= 0 is false), fails the line 64 balance check instead, and that
InsufficientFunds outcome IS recorded under the key. -/
theorem c2_counterexample_infinity_not_invalid_request :
    (executeTransfer seedState
        ⟨some "K5", some "ACC12345", some "ACC67890", some JNum.inf⟩
        "u5-5" "T5").1.2 = Body.errInsufficientFunds ∧
    dictGet (executeTransfer seedState
        ⟨some "K5", some "ACC12345", some "ACC67890", some JNum.inf⟩
        "u5-5" "T5").2.PROCESSED_KEYS "K5"
      = some Body.errInsufficientFunds := by
  decide

/-- C2 (amended): with a fresh non-empty key, a request whose amount fails
the line 45 test — not of JS number type, or a number with amount <= 0
(zero, negative, or -Infinity) — is answered with InvalidRequest, no ledger
balance changes, and nothing recorded under the key: the state is returned
unchanged. NaN and +Infinity are exactly the non-finite-positive amounts
this test does not catch, since NaN <= 0 and Infinity <= 0 are both
false. -/
theorem c2_bad_amount_rejected_and_unrecorded
    (st : St) (req : Request) (u t : String) (k : String)
    (hk : req.idempotencyKey = some k) (hkne : k ≠ "")
    (hfresh : dictGet st.PROCESSED_KEYS k = none)
    (hbad : invalidAmount req.amount = true) :
    executeTransfer st req u t = ((400, Body.errInvalidRequest), st) :=
  executeTransfer_invalidRequest st req u t k hk hkne hfresh
    (by rw [hbad]; simp)

/-- Witness for C2 (amended): an amount of zero under a fresh key is
rejected as InvalidRequest with the seed state unchanged. -/
theorem c2_witness :
    executeTransfer seedState
      ⟨some "K6", some "ACC12345", some "ACC67890", some (JNum.num 0)⟩
      "u6-6" "T6"
    = ((400, Body.errInvalidRequest), seedState) :=
  c2_bad_amount_rejected_and_unrecorded seedState _ "u6-6" "T6" "K6" rfl
    (by decide) rfl (by decide)

/-- C4: in every state reachable from the seed state by any sequence of
calls whose amount fields can come out of the strict JSON body parser of
line 7 (any JS number except NaN, which has no JSON representation), every
account balance b satisfies 0 <= b. -/
theorem c4_reachable_balances_nonnegative (calls : List Call)
    (hj : ∀ c ∈ calls, jsonAmount c.req.amount) :
    ∀ p ∈ (run seedState calls).ACCOUNTS,
      JNum.jle (JNum.num 0) p.2 = true := by
  intro p hp
  obtain ⟨q, hq, hq0⟩ :=
    goodAccounts_run calls seedState goodAccounts_seed hj p hp
  rw [hq]
  simpa [JNum.jle] using hq0

/-- Witness for C4: after one committing call (200 from ACC12345 to
ACC67890) the debited entry of ACC12345 is still non-negative. -/
theorem c4_witness :
    JNum.jle (JNum.num 0)
      (("ACC12345", JNum.num 1300) : String × JNum).2 = true :=
  c4_reachable_balances_nonnegative
    [⟨⟨some "K1", some "ACC12345", some "ACC67890", some (JNum.num 200)⟩,
      "ab12cd34-9999", "T1"⟩]
    (by
      intro c hc
      simp at hc
      subst hc
      simp [jsonAmount])
    ("ACC12345", JNum.num 1300)
    (by
      simp [run, executeTransfer, seedState, falsy, invalidAmount, dictGet,
        dictSet, JNum.jlt, JNum.jle, JNum.sub, JNum.add, JNum.neg]
      norm_num)

/-- C5: for every successful transfer — a commit (status 201) out of a state
reachable from the seed by calls whose amounts can come out of the strict
JSON parser — the sum of all account balances after the transfer equals the
sum before it: the debited amount equals the credited amount. -/
theorem c5_successful_transfer_conserves_sum (calls : List Call)
    (hj : ∀ c ∈ calls, jsonAmount c.req.amount)
    (req : Request) (u t : String) (hreq : jsonAmount req.amount)
    (h201 : (executeTransfer (run seedState calls) req u t).1.1 = 201) :
    sumBalances (executeTransfer (run seedState calls) req u t).2.ACCOUNTS
      = sumBalances (run seedState calls).ACCOUNTS := by
  have hg : goodAccounts (run seedState calls).ACCOUNTS :=
    goodAccounts_run calls seedState goodAccounts_seed hj
  rcases executeTransfer_shape (run seedState calls) req u t with
      ⟨sc, b, hE, hne⟩ |
      ⟨k, _, _, _, hE⟩ |
      ⟨k, s, r, a, bs, br, hk, hkne, hfresh, hs, hr, ha, hapos, hbs, hbr,
        hsr, hfunds, hE⟩
  · rw [hE] at h201
    exact absurd h201 hne
  · rw [hE] at h201
    simp at h201
  · obtain ⟨qs, hqs, hqs0⟩ := hg _ (mem_of_dictGet hbs)
    obtain ⟨qr, hqr, hqr0⟩ := hg _ (mem_of_dictGet hbr)
    simp only at hqs hqr
    subst hqs hqr
    rcases a with _ | _ | _ | qa
    · exact absurd ha hreq
    · simp [JNum.jlt] at hfunds
    · simp [JNum.jle] at hapos
    · have hstep : goodAccounts
          (dictSet (dictSet (run seedState calls).ACCOUNTS s
              (JNum.sub (JNum.num qs) (JNum.num qa))) r
            (JNum.add (JNum.num qr) (JNum.num qa))) := by
        have h0 := goodAccounts_step (run seedState calls) req u t hg hreq
        rwa [hE] at h0
      rw [hE]
      have h1 : dictGet (dictSet (run seedState calls).ACCOUNTS s
          (JNum.sub (JNum.num qs) (JNum.num qa))) r
          = some (JNum.num qr) := by
        rw [dictGet_dictSet_ne _ _ _ _ (Ne.symm hsr)]
        exact hbr
      rw [sumBalances_eq_sumQ hstep, sumBalances_eq_sumQ hg,
        sumQ_dictSet h1, sumQ_dictSet hbs]
      congr 1
      simp [qval, JNum.sub, JNum.add, JNum.neg]
      ring

/-- Witness for C5: a 200 transfer from ACC12345 to ACC67890 on the seed
state commits, and the balance sum is conserved. -/
theorem c5_witness :
    sumBalances (executeTransfer (run seedState [])
      ⟨some "K1", some "ACC12345", some "ACC67890", some (JNum.num 200)⟩
      "ab12cd34-9999" "T1").2.ACCOUNTS
    = sumBalances (run seedState []).ACCOUNTS :=
  c5_successful_transfer_conserves_sum [] (by simp)
    ⟨some "K1", some "ACC12345", some "ACC67890", some (JNum.num 200)⟩
    "ab12cd34-9999" "T1" (by simp [jsonAmount])
    (by
      simp [run, executeTransfer, seedState, falsy, invalidAmount,
        dictGet, dictSet, JNum.jlt, JNum.jle]
      norm_num)

/-- C7: a request with a fresh non-empty key that passes all six checks
commits: the sender's balance decreases by the amount and the receiver's
increases by it, a Transaction record carrying the generated TRX- id, the
sender, the receiver, the amount, the timestamp and status COMPLETED is
stored under that id, and a Success outcome carrying the id, the post-debit
sender balance and the timestamp is recorded under the key and returned with
status 201. -/
theorem c7_fresh_valid_request_commits
    (st : St) (req : Request) (u t : String) (k s r : String)
    (a bs br : JNum)
    (hk : req.idempotencyKey = some k) (hkne : k ≠ "")
    (hfresh : dictGet st.PROCESSED_KEYS k = none)
    (hs : req.sender_account_id = some s) (hsne : s ≠ "")
    (hr : req.receiver_account_id = some r) (hrne : r ≠ "")
    (ha : req.amount = some a) (hapos : JNum.jle a (JNum.num 0) = false)
    (hbs : dictGet st.ACCOUNTS s = some bs)
    (hbr : dictGet st.ACCOUNTS r = some br)
    (hsr : s ≠ r)
    (hfunds : JNum.jlt bs a = false) :
    (executeTransfer st req u t).1
      = (201, Body.success (transactionIdOf u) (JNum.sub bs a) t) ∧
    dictGet (executeTransfer st req u t).2.ACCOUNTS s
      = some (JNum.sub bs a) ∧
    dictGet (executeTransfer st req u t).2.ACCOUNTS r
      = some (JNum.add br a) ∧
    dictGet (executeTransfer st req u t).2.TRANSACTIONS (transactionIdOf u)
      = some ⟨transactionIdOf u, s, r, a, t, "COMPLETED"⟩ ∧
    dictGet (executeTransfer st req u t).2.PROCESSED_KEYS k
      = some (Body.success (transactionIdOf u) (JNum.sub bs a) t) := by
  have E := executeTransfer_commit st req u t k s r a bs br hk hkne hfresh
    hs hsne hr hrne ha hapos hbs hbr hsr hfunds
  refine ⟨by rw [E], ?_, ?_, ?_, ?_⟩
  · rw [E]
    show dictGet (dictSet (dictSet st.ACCOUNTS s (JNum.sub bs a)) r
      (JNum.add br a)) s = some (JNum.sub bs a)
    rw [dictGet_dictSet_ne _ _ _ _ hsr]
    exact dictGet_dictSet_self _ _ _
  · rw [E]
    exact dictGet_dictSet_self _ _ _
  · rw [E]
    exact dictGet_dictSet_self _ _ _
  · rw [E]
    exact dictGet_dictSet_self _ _ _

/-- Witness for C7: the seed scenario, 200 from ACC12345 (1500) to ACC67890
(500) under fresh key K1. -/
theorem c7_witness :
    (executeTransfer seedState
      ⟨some "K1", some "ACC12345", some "ACC67890", some (JNum.num 200)⟩
      "ab12cd34-9999-1111-2222-333333333333" "T1").1
      = (201, Body.success
          (transactionIdOf "ab12cd34-9999-1111-2222-333333333333")
          (JNum.sub (JNum.num 1500) (JNum.num 200)) "T1") ∧
    dictGet (executeTransfer seedState
      ⟨some "K1", some "ACC12345", some "ACC67890", some (JNum.num 200)⟩
      "ab12cd34-9999-1111-2222-333333333333" "T1").2.ACCOUNTS "ACC12345"
      = some (JNum.sub (JNum.num 1500) (JNum.num 200)) ∧
    dictGet (executeTransfer seedState
      ⟨some "K1", some "ACC12345", some "ACC67890", some (JNum.num 200)⟩
      "ab12cd34-9999-1111-2222-333333333333" "T1").2.ACCOUNTS "ACC67890"
      = some (JNum.add (JNum.num 500) (JNum.num 200)) ∧
    dictGet (executeTransfer seedState
      ⟨some "K1", some "ACC12345", some "ACC67890", some (JNum.num 200)⟩
      "ab12cd34-9999-1111-2222-333333333333" "T1").2.TRANSACTIONS
      (transactionIdOf "ab12cd34-9999-1111-2222-333333333333")
      = some ⟨transactionIdOf "ab12cd34-9999-1111-2222-333333333333",
          "ACC12345", "ACC67890", JNum.num 200, "T1", "COMPLETED"⟩ ∧
    dictGet (executeTransfer seedState
      ⟨some "K1", some "ACC12345", some "ACC67890", some (JNum.num 200)⟩
      "ab12cd34-9999-1111-2222-333333333333" "T1").2.PROCESSED_KEYS "K1"
      = some (Body.success
          (transactionIdOf "ab12cd34-9999-1111-2222-333333333333")
          (JNum.sub (JNum.num 1500) (JNum.num 200)) "T1") :=
  c7_fresh_valid_request_commits seedState _
    "ab12cd34-9999-1111-2222-333333333333" "T1" "K1" "ACC12345" "ACC67890"
    (JNum.num 200) (JNum.num 1500) (JNum.num 500) rfl (by decide) rfl rfl
    (by decide) rfl (by decide) rfl (by decide) rfl rfl (by decide)
    (by decide)

/-- C10: with a fresh non-empty key, valid fields, distinct existing
accounts, and an amount exactly equal to the sender's current balance, the
transfer succeeds — the line 64 insufficient-funds check is strict, failing
only when balance < amount — and the sender's new balance is exactly
zero. -/
theorem c10_exact_balance_drains_to_zero
    (st : St) (req : Request) (u t : String) (k s r : String) (q : ℚ)
    (br : JNum)
    (hk : req.idempotencyKey = some k) (hkne : k ≠ "")
    (hfresh : dictGet st.PROCESSED_KEYS k = none)
    (hs : req.sender_account_id = some s) (hsne : s ≠ "")
    (hr : req.receiver_account_id = some r) (hrne : r ≠ "")
    (hsr : s ≠ r)
    (hbs : dictGet st.ACCOUNTS s = some (JNum.num q))
    (hbr : dictGet st.ACCOUNTS r = some br)
    (ha : req.amount = some (JNum.num q)) (hq : 0 < q) :
    (executeTransfer st req u t).1.1 = 201 ∧
    dictGet (executeTransfer st req u t).2.ACCOUNTS s
      = some (JNum.num 0) := by
  have hapos : JNum.jle (JNum.num q) (JNum.num 0) = false := by
    simp [JNum.jle]
    linarith
  have hfunds : JNum.jlt (JNum.num q) (JNum.num q) = false := by
    simp [JNum.jlt]
  have E := executeTransfer_commit st req u t k s r (JNum.num q) (JNum.num q)
    br hk hkne hfresh hs hsne hr hrne ha hapos hbs hbr hsr hfunds
  constructor
  · rw [E]
  · rw [E]
    show dictGet (dictSet (dictSet st.ACCOUNTS s
      (JNum.sub (JNum.num q) (JNum.num q))) r (JNum.add br (JNum.num q))) s
      = some (JNum.num 0)
    rw [dictGet_dictSet_ne _ _ _ _ hsr, dictGet_dictSet_self]
    simp [JNum.sub, JNum.add, JNum.neg]

/-- Witness for C10: draining the full 500 balance of ACC67890 into
ACC12345 succeeds and leaves ACC67890 at exactly zero. -/
theorem c10_witness :
    (executeTransfer seedState
      ⟨some "K7", some "ACC67890", some "ACC12345", some (JNum.num 500)⟩
      "u7-7" "T7").1.1 = 201 ∧
    dictGet (executeTransfer seedState
      ⟨some "K7", some "ACC67890", some "ACC12345", some (JNum.num 500)⟩
      "u7-7" "T7").2.ACCOUNTS "ACC67890" = some (JNum.num 0) :=
  c10_exact_balance_drains_to_zero seedState _ "u7-7" "T7" "K7" "ACC67890"
    "ACC12345" 500 (JNum.num 1500) rfl (by decide) rfl rfl (by decide) rfl
    (by decide) (by decide) rfl rfl rfl (by decide)
